import Mathlib

/-!
Shallow embedding of the hydroponic expert system's simulation core
(`src/services/simulationService.ts`) together with the data model from
`src/models/Parameters.ts` and `src/models/CropParameters.ts`.

Numbers are modelled as exact rationals (`ℚ`) for all linear arithmetic;
the non-linear weighting `Math.pow(base, 1 + weight)` of the yield
evaluator is modelled with the real power function (`Real.rpow`), so the
yield pipeline lives in `ℝ`.  `Math.round x` is `round x = ⌊x + 1/2⌋`,
which matches JavaScript's round-half-up.  Growth-time day counts are
integers, as the specification's data model prescribes.  Issue and
recommendation strings are modelled by their identity (which parameter
and which kind of message), not their rendered text.
-/

/-- The nine parameter keys iterated by `SimulationService.parameterKeys`. -/
inductive ParameterKey where
  | ph
  | ec
  | airTemperature
  | solutionTemperature
  | lightIntensity
  | co2Level
  | humidity
  | waterLevel
  | oxygenLevel
deriving DecidableEq, Repr, Fintype

/-- `ParameterRange` from `CropParameters.ts`: optimal bounds plus optional
critical bounds. -/
structure ParameterRange where
  min : ℚ
  max : ℚ
  criticalMin : Option ℚ
  criticalMax : Option ℚ
deriving DecidableEq, Repr

/-- `GrowthTime` from `CropParameters.ts`: optimal and maximal growth time
in days (integer day counts). -/
structure GrowthTime where
  optimal : ℤ
  max : ℤ
deriving DecidableEq, Repr

/-- `CropOptimalParameters` from `CropParameters.ts`: one range per key. -/
structure CropOptimalParameters where
  ph : ParameterRange
  ec : ParameterRange
  airTemperature : ParameterRange
  solutionTemperature : ParameterRange
  lightIntensity : ParameterRange
  co2Level : ParameterRange
  humidity : ParameterRange
  waterLevel : ParameterRange
  oxygenLevel : ParameterRange
deriving DecidableEq, Repr

/-- `CropConfig` from `CropParameters.ts` (the `name` display string is
dropped; it is never read by the simulation core). -/
structure CropConfig where
  optimal : CropOptimalParameters
  growthTime : GrowthTime
  maxYield : ℚ
deriving DecidableEq, Repr

/-- `Parameters` from `Parameters.ts`: crop identifier plus nine readings. -/
structure Parameters where
  cropType : String
  ph : ℚ
  ec : ℚ
  airTemperature : ℚ
  solutionTemperature : ℚ
  lightIntensity : ℚ
  co2Level : ℚ
  humidity : ℚ
  waterLevel : ℚ
  oxygenLevel : ℚ
deriving DecidableEq, Repr

/-- Identity of an issue message pushed onto the `issues` array:
either the critical-bounds message of `checkViability` or the
suboptimal-impact message of `calculateYield`, for a given parameter. -/
inductive Issue where
  | critical (k : ParameterKey)
  | suboptimal (k : ParameterKey)
deriving DecidableEq, Repr

/-- Identity of a recommendation message pushed by
`generateRecommendations`: raise / lower a parameter, or the combined
pH/EC balance advisory. -/
inductive Rec where
  | increase (k : ParameterKey)
  | decrease (k : ParameterKey)
  | phEcBalance
deriving DecidableEq, Repr

/-- Field access `params[key]` for the nine shared keys. -/
def paramValue (p : Parameters) : ParameterKey → ℚ
  | .ph => p.ph
  | .ec => p.ec
  | .airTemperature => p.airTemperature
  | .solutionTemperature => p.solutionTemperature
  | .lightIntensity => p.lightIntensity
  | .co2Level => p.co2Level
  | .humidity => p.humidity
  | .waterLevel => p.waterLevel
  | .oxygenLevel => p.oxygenLevel

/-- Field access `config.optimal[key]`. -/
def optRange (c : CropOptimalParameters) : ParameterKey → ParameterRange
  | .ph => c.ph
  | .ec => c.ec
  | .airTemperature => c.airTemperature
  | .solutionTemperature => c.solutionTemperature
  | .lightIntensity => c.lightIntensity
  | .co2Level => c.co2Level
  | .humidity => c.humidity
  | .waterLevel => c.waterLevel
  | .oxygenLevel => c.oxygenLevel

/-- `SimulationService.PARAM_WEIGHTS` (1.2, 1.5, 1.0, 1.0, 1.3, 0.9, 0.6,
0.7, 1.4 written as exact rationals). -/
def PARAM_WEIGHTS : ParameterKey → ℚ
  | .ph => 6/5
  | .ec => 3/2
  | .airTemperature => 1
  | .solutionTemperature => 1
  | .lightIntensity => 13/10
  | .co2Level => 9/10
  | .humidity => 3/5
  | .waterLevel => 7/10
  | .oxygenLevel => 7/5

/-- `SimulationService.parameterKeys`: the fixed iteration order. -/
def parameterKeys : List ParameterKey :=
  [.ph, .ec, .airTemperature, .solutionTemperature,
   .lightIntensity, .co2Level, .humidity, .waterLevel, .oxygenLevel]

/-- The utility `clamp(v, a, b)` from `simulationService.ts`. -/
def clamp (v a b : ℚ) : ℚ := Max.max a (Min.min b v)

/-- Effective critical minimum: `limits.criticalMin ?? limits.min`. -/
def effCmin (r : ParameterRange) : ℚ := r.criticalMin.getD r.min

/-- Effective critical maximum: `limits.criticalMax ?? limits.max`. -/
def effCmax (r : ParameterRange) : ℚ := r.criticalMax.getD r.max

/-- `SimulationService.computeLinearNormalized`: linear interpolation
between the critical bound (0) and the optimal bound (1), with explicit
guards for degenerate profiles (no slack between critical and optimal). -/
def computeLinearNormalized (value mn mx cmin cmax : ℚ) : ℚ :=
  if value < mn then
    if cmin ≥ mn then 0
    else clamp ((value - cmin) / (mn - cmin)) 0 1
  else if value > mx then
    if cmax ≤ mx then 0
    else clamp ((cmax - value) / (cmax - mx)) 0 1
  else 1

/-- The critical-bounds test of `checkViability`:
`value < cmin || value > cmax` for the effective critical bounds. -/
def ViolatesCritical (p : Parameters) (c : CropOptimalParameters)
    (k : ParameterKey) : Prop :=
  paramValue p k < effCmin (optRange c k) ∨ paramValue p k > effCmax (optRange c k)

instance (p : Parameters) (c : CropOptimalParameters) (k : ParameterKey) :
    Decidable (ViolatesCritical p c k) := by
  unfold ViolatesCritical
  infer_instance

/-- One iteration of the `forEach` in `SimulationService.checkViability`:
a value strictly outside the effective critical bounds flips the viability
flag and appends one issue. -/
def viabilityStep (p : Parameters) (c : CropOptimalParameters)
    (acc : Bool × List Issue) (k : ParameterKey) : Bool × List Issue :=
  if ViolatesCritical p c k then (false, acc.2 ++ [Issue.critical k])
  else acc

/-- `SimulationService.checkViability`: the aggregate viability flag and
the list of critical issues, over all nine parameters. -/
def checkViability (p : Parameters) (c : CropOptimalParameters) :
    Bool × List Issue :=
  parameterKeys.foldl (viabilityStep p c) (true, [])

/-- `SimulationService.calculateGrowthTime`: growth time in days, starting
from the optimal time and applying the three low-condition penalties
(×1.5 cold air, ×1.3 low light, ×1.2 low CO2), capped at the maximum. -/
def calculateGrowthTime (p : Parameters) (c : CropConfig) : ℤ :=
  let optimal := c.growthTime.optimal
  let mx := c.growthTime.max
  let multiplier : ℚ :=
    1 * (if p.airTemperature < (optRange c.optimal .airTemperature).min then 3/2 else 1)
      * (if p.lightIntensity < (optRange c.optimal .lightIntensity).min then 13/10 else 1)
      * (if p.co2Level < (optRange c.optimal .co2Level).min then 6/5 else 1)
  Min.min (round ((optimal : ℚ) * multiplier)) mx

/-- One iteration of the `forEach` in
`SimulationService.generateRecommendations`. -/
def recStep (p : Parameters) (c : CropOptimalParameters)
    (acc : List Rec) (k : ParameterKey) : List Rec :=
  let value := paramValue p k
  let limits := optRange c k
  if value < limits.min then acc ++ [Rec.increase k]
  else if value > limits.max then acc ++ [Rec.decrease k]
  else acc

/-- `SimulationService.generateRecommendations`: per-parameter directives
plus the combined pH/EC advisory (0.8 / 0.4 midpoint-deviation
thresholds). -/
def generateRecommendations (p : Parameters) (c : CropOptimalParameters) :
    List Rec :=
  let recs := parameterKeys.foldl (recStep p c) []
  if |p.ec - ((optRange c .ec).min + (optRange c .ec).max) / 2| > 4/5 ∧
     |p.ph - ((optRange c .ph).min + (optRange c .ph).max) / 2| > 2/5 then
    recs ++ [Rec.phEcBalance]
  else recs

/-- The `ParameterRange` invariant from the specification's data model:
`min ≤ max`, and the effective critical bounds bracket the optimal ones. -/
def RangeValid (r : ParameterRange) : Prop :=
  r.min ≤ r.max ∧ effCmin r ≤ r.min ∧ r.max ≤ effCmax r

instance (r : ParameterRange) : Decidable (RangeValid r) := by
  unfold RangeValid
  infer_instance

/-- All nine ranges of a profile satisfy the range invariant. -/
def ProfileValid (c : CropOptimalParameters) : Prop :=
  ∀ k, RangeValid (optRange c k)

instance (c : CropOptimalParameters) : Decidable (ProfileValid c) := by
  unfold ProfileValid
  infer_instance

/-- The in-optimal-range test `value >= limits.min && value <= limits.max`
shared by `calculateYield` and the deviation record. -/
def InOptimalRange (p : Parameters) (c : CropOptimalParameters)
    (k : ParameterKey) : Prop :=
  (optRange c k).min ≤ paramValue p k ∧ paramValue p k ≤ (optRange c k).max

instance (p : Parameters) (c : CropOptimalParameters) (k : ParameterKey) :
    Decidable (InOptimalRange p c k) := by
  unfold InOptimalRange
  infer_instance

/-- Every reading lies inside its optimal range. -/
def AllOptimal (p : Parameters) (c : CropOptimalParameters) : Prop :=
  ∀ k, InOptimalRange p c k

instance (p : Parameters) (c : CropOptimalParameters) :
    Decidable (AllOptimal p c) := by
  unfold AllOptimal
  infer_instance

/-- The multiplicative contribution of one parameter in
`SimulationService.calculateYield`: `1` inside the optimal range,
otherwise `max(0.01, linear) ^ (1 + weight)` (real power). -/
noncomputable def impactVal (w : ℚ) (r : ParameterRange) (v : ℚ) : ℝ :=
  if r.min ≤ v ∧ v ≤ r.max then 1
  else
    ((Max.max (1/100) (computeLinearNormalized v r.min r.max (effCmin r) (effCmax r)) : ℚ) : ℝ)
      ^ ((1 + w : ℚ) : ℝ)

/-- The impact of a given key for given readings and profile. -/
noncomputable def impactOf (p : Parameters) (c : CropOptimalParameters)
    (k : ParameterKey) : ℝ :=
  impactVal (PARAM_WEIGHTS k) (optRange c k) (paramValue p k)

/-- The deviation recorded by `calculateYield` for a key: `0` inside the
optimal range, otherwise `|1 - impact|`. -/
noncomputable def devOf (p : Parameters) (c : CropOptimalParameters)
    (k : ParameterKey) : ℝ :=
  if InOptimalRange p c k then 0 else |1 - impactOf p c k|

/-- One iteration of the `forEach` in `SimulationService.calculateYield`:
the accumulator carries the running multiplier, the `deviations` record
and the issues list. -/
noncomputable def yieldStep (p : Parameters) (c : CropOptimalParameters)
    (acc : ℝ × (ParameterKey → ℝ) × List Issue) (k : ParameterKey) :
    ℝ × (ParameterKey → ℝ) × List Issue :=
  if InOptimalRange p c k then
    (acc.1, Function.update acc.2.1 k 0, acc.2.2)
  else
    let impact := impactOf p c k
    (acc.1 * impact, Function.update acc.2.1 k |1 - impact|,
      acc.2.2 ++ (if impact < 1 then [Issue.suboptimal k] else []))

/-- The full `forEach` loop of `calculateYield`, started from multiplier
`1.0`, an empty deviations record (`?? 0` reads) and no issues. -/
noncomputable def yieldFold (p : Parameters) (c : CropOptimalParameters) :
    ℝ × (ParameterKey → ℝ) × List Issue :=
  parameterKeys.foldl (yieldStep p c) (1, fun _ => 0, [])

/-- The yield multiplier after the pH/EC interaction penalty: an extra
factor `0.9` exactly when `deviations['ec'] > 0.2` and
`deviations['ph'] > 0.15`. -/
noncomputable def finalMultiplier (p : Parameters) (c : CropOptimalParameters) : ℝ :=
  let r := yieldFold p c
  if r.2.1 .ec > 1/5 ∧ r.2.1 .ph > 3/20 then r.1 * (9/10) else r.1

/-- `SimulationService.calculateYield`: the integer percentage
`max(0, round(multiplier * 100))` and the suboptimal-impact issues. -/
noncomputable def calculateYield (p : Parameters) (c : CropOptimalParameters) :
    ℤ × List Issue :=
  (Max.max 0 (round (finalMultiplier p c * 100)), (yieldFold p c).2.2)

/-- `SimulationResult` from the data model (string messages replaced by
their identities). -/
structure SimulationResult where
  isViable : Bool
  yieldPercentage : ℤ
  expectedGrams : ℤ
  yieldPerSquareMeter : ℚ
  growthTime : ℤ
  issues : List Issue
  recommendations : List Rec
deriving DecidableEq, Repr

/-- The body of `SimulationService.simulateGrowth` once the crop profile
has been resolved: viability, yield, growth time, derived yield figures
and recommendations, with the shared issues list receiving the viability
issues first and the yield issues second. -/
noncomputable def simulateWithConfig (c : CropConfig) (p : Parameters) :
    SimulationResult :=
  let viability := checkViability p c.optimal
  let yield := calculateYield p c.optimal
  let growthTime := calculateGrowthTime p c
  let expectedGrams := round (c.maxYield * ((yield.1 : ℚ) / 100))
  let yieldPerSquareMeter := ((round (((expectedGrams : ℚ) / 1000) * 100) : ℤ) : ℚ) / 100
  { isViable := viability.1
    yieldPercentage := yield.1
    expectedGrams := expectedGrams
    yieldPerSquareMeter := yieldPerSquareMeter
    growthTime := growthTime
    issues := viability.2 ++ yield.2
    recommendations := generateRecommendations p c.optimal }

/-- How a simulation call can fail before producing a result.
`undefinedProfileAccess` models the runtime `TypeError` raised when the
registry lookup `CROP_PARAMETERS[params.cropType]` yields `undefined`
and `checkViability` then reads `config.optimal`; `unknownCrop` models a
typed lookup-failure error (an `UnknownCropError`). -/
inductive SimError where
  | undefinedProfileAccess
  | unknownCrop
deriving DecidableEq, Repr

/-- `SimulationService.simulateGrowth`, parametric in the crop profile
registry (the registry data is external to the core): the lookup
`CROP_PARAMETERS[params.cropType]` is performed with no check, so a
missing key leads to the undefined-profile-access failure inside
`checkViability`. -/
noncomputable def simulateGrowth (registry : String → Option CropConfig)
    (p : Parameters) : Except SimError SimulationResult :=
  match registry p.cropType with
  | none => .error .undefinedProfileAccess
  | some c => .ok (simulateWithConfig c p)

lemma clamp_nonneg (v : ℚ) : 0 ≤ clamp v 0 1 := le_max_left _ _

lemma clamp_le_one (v : ℚ) : clamp v 0 1 ≤ 1 :=
  max_le (by norm_num) (min_le_left _ _)

lemma computeLinearNormalized_nonneg (value mn mx cmin cmax : ℚ) :
    0 ≤ computeLinearNormalized value mn mx cmin cmax := by
  unfold computeLinearNormalized
  split_ifs <;> first | exact clamp_nonneg _ | norm_num

lemma computeLinearNormalized_le_one (value mn mx cmin cmax : ℚ) :
    computeLinearNormalized value mn mx cmin cmax ≤ 1 := by
  unfold computeLinearNormalized
  split_ifs <;> first | exact clamp_le_one _ | norm_num

lemma impactVal_pos (w : ℚ) (r : ParameterRange) (v : ℚ) :
    0 < impactVal w r v := by
  unfold impactVal
  split
  · norm_num
  · apply Real.rpow_pos_of_pos
    have h : (0 : ℚ) < Max.max (1/100) (computeLinearNormalized v r.min r.max (effCmin r) (effCmax r)) :=
      lt_of_lt_of_le (by norm_num) (le_max_left _ _)
    exact_mod_cast h

lemma impactVal_le_one (w : ℚ) (r : ParameterRange) (v : ℚ) (hw : 0 ≤ w) :
    impactVal w r v ≤ 1 := by
  unfold impactVal
  split
  · norm_num
  · apply Real.rpow_le_one
    · have h : (0 : ℚ) ≤ Max.max (1/100) (computeLinearNormalized v r.min r.max (effCmin r) (effCmax r)) :=
        le_trans (by norm_num) (le_max_left _ _)
      exact_mod_cast h
    · have h : Max.max (1/100) (computeLinearNormalized v r.min r.max (effCmin r) (effCmax r)) ≤ (1 : ℚ) :=
        max_le (by norm_num) (computeLinearNormalized_le_one _ _ _ _ _)
      exact_mod_cast h
    · have h : (0 : ℚ) ≤ 1 + w := by linarith
      exact_mod_cast h

lemma impactVal_lower (w : ℚ) (r : ParameterRange) (v : ℚ) (hw : 0 ≤ w) :
    ((1/100 : ℚ) : ℝ) ^ ((1 + w : ℚ) : ℝ) ≤ impactVal w r v := by
  unfold impactVal
  split
  · apply Real.rpow_le_one
    · norm_num
    · norm_num
    · have h : (0 : ℚ) ≤ 1 + w := by linarith
      exact_mod_cast h
  · apply Real.rpow_le_rpow
    · norm_num
    · have h : (1/100 : ℚ) ≤ Max.max (1/100) (computeLinearNormalized v r.min r.max (effCmin r) (effCmax r)) :=
        le_max_left _ _
      exact_mod_cast h
    · have h : (0 : ℚ) ≤ 1 + w := by linarith
      exact_mod_cast h

lemma weight_pos (k : ParameterKey) : 0 < PARAM_WEIGHTS k := by
  cases k <;> norm_num [PARAM_WEIGHTS]

lemma impactOf_pos (p : Parameters) (c : CropOptimalParameters) (k : ParameterKey) :
    0 < impactOf p c k := impactVal_pos _ _ _

lemma impactOf_le_one (p : Parameters) (c : CropOptimalParameters) (k : ParameterKey) :
    impactOf p c k ≤ 1 :=
  impactVal_le_one _ _ _ (le_of_lt (weight_pos k))

lemma impactOf_of_inRange (p : Parameters) (c : CropOptimalParameters)
    (k : ParameterKey) (h : InOptimalRange p c k) : impactOf p c k = 1 := by
  unfold impactOf impactVal
  exact if_pos h

lemma mem_parameterKeys (k : ParameterKey) : k ∈ parameterKeys := by
  cases k <;> simp [parameterKeys]

lemma yieldStep_fst (p : Parameters) (c : CropOptimalParameters)
    (acc : ℝ × (ParameterKey → ℝ) × List Issue) (k : ParameterKey) :
    (yieldStep p c acc k).1 = acc.1 * impactOf p c k := by
  unfold yieldStep
  split
  · rename_i h
    rw [impactOf_of_inRange p c k h, mul_one]
  · rfl

lemma yieldStep_devs (p : Parameters) (c : CropOptimalParameters)
    (acc : ℝ × (ParameterKey → ℝ) × List Issue) (k : ParameterKey) :
    (yieldStep p c acc k).2.1 = Function.update acc.2.1 k (devOf p c k) := by
  unfold yieldStep devOf
  split
  · rename_i h
    simp [h]
  · rename_i h
    simp [h]

lemma yieldStep_issues (p : Parameters) (c : CropOptimalParameters)
    (acc : ℝ × (ParameterKey → ℝ) × List Issue) (k : ParameterKey)
    (h : InOptimalRange p c k) :
    (yieldStep p c acc k).2.2 = acc.2.2 := by
  unfold yieldStep
  rw [if_pos h]

lemma foldl_yieldStep_fst (p : Parameters) (c : CropOptimalParameters) :
    ∀ (l : List ParameterKey) (acc : ℝ × (ParameterKey → ℝ) × List Issue),
      (l.foldl (yieldStep p c) acc).1 = acc.1 * (l.map (impactOf p c)).prod := by
  intro l
  induction l with
  | nil => intro acc; simp
  | cons a t ih =>
    intro acc
    rw [List.foldl_cons, ih, yieldStep_fst, List.map_cons, List.prod_cons, mul_assoc]

lemma foldl_yieldStep_devs (p : Parameters) (c : CropOptimalParameters) :
    ∀ (l : List ParameterKey) (acc : ℝ × (ParameterKey → ℝ) × List Issue)
      (k : ParameterKey),
      (l.foldl (yieldStep p c) acc).2.1 k =
        if k ∈ l then devOf p c k else acc.2.1 k := by
  intro l
  induction l with
  | nil => intro acc k; simp
  | cons a t ih =>
    intro acc k
    rw [List.foldl_cons, ih, yieldStep_devs]
    by_cases ht : k ∈ t
    · simp [ht]
    · by_cases hk : k = a
      · subst hk
        simp [ht]
      · simp [ht, hk, Function.update_noteq hk]

lemma foldl_yieldStep_issues (p : Parameters) (c : CropOptimalParameters) :
    ∀ (l : List ParameterKey) (acc : ℝ × (ParameterKey → ℝ) × List Issue),
      (∀ k ∈ l, InOptimalRange p c k) →
      (l.foldl (yieldStep p c) acc).2.2 = acc.2.2 := by
  intro l
  induction l with
  | nil => intro acc _; rfl
  | cons a t ih =>
    intro acc h
    rw [List.foldl_cons, ih _ (fun k hk => h k (List.mem_cons_of_mem a hk)),
      yieldStep_issues _ _ _ _ (h a (List.mem_cons_self a t))]

lemma yieldFold_fst (p : Parameters) (c : CropOptimalParameters) :
    (yieldFold p c).1 = (parameterKeys.map (impactOf p c)).prod := by
  rw [yieldFold, foldl_yieldStep_fst, one_mul]

lemma yieldFold_devs (p : Parameters) (c : CropOptimalParameters) (k : ParameterKey) :
    (yieldFold p c).2.1 k = devOf p c k := by
  rw [yieldFold, foldl_yieldStep_devs, if_pos (mem_parameterKeys k)]

lemma list_prod_le_one {l : List ℝ} (h0 : ∀ x ∈ l, 0 ≤ x) (h1 : ∀ x ∈ l, x ≤ 1) :
    l.prod ≤ 1 := by
  induction l with
  | nil => simp
  | cons a t ih =>
    rw [List.prod_cons]
    have ha0 := h0 a (List.mem_cons_self a t)
    have ha1 := h1 a (List.mem_cons_self a t)
    have ht0 : ∀ x ∈ t, (0:ℝ) ≤ x := fun x hx => h0 x (List.mem_cons_of_mem a hx)
    have ht1 : ∀ x ∈ t, x ≤ (1:ℝ) := fun x hx => h1 x (List.mem_cons_of_mem a hx)
    have := ih ht0 ht1
    have hp0 : (0:ℝ) ≤ t.prod := List.prod_nonneg ht0
    nlinarith

lemma list_prod_nonneg {l : List ℝ} (h0 : ∀ x ∈ l, 0 ≤ x) : 0 ≤ l.prod :=
  List.prod_nonneg h0

lemma list_prod_le_of_mem {l : List ℝ} (h0 : ∀ x ∈ l, 0 ≤ x)
    (h1 : ∀ x ∈ l, x ≤ 1) {a ε : ℝ} (ha : a ∈ l) (haε : a ≤ ε) (hε : 0 ≤ ε) :
    l.prod ≤ ε := by
  induction l with
  | nil => cases ha
  | cons b t ih =>
    rw [List.prod_cons]
    have hb0 := h0 b (List.mem_cons_self b t)
    have hb1 := h1 b (List.mem_cons_self b t)
    have ht0 : ∀ x ∈ t, (0:ℝ) ≤ x := fun x hx => h0 x (List.mem_cons_of_mem b hx)
    have ht1 : ∀ x ∈ t, x ≤ (1:ℝ) := fun x hx => h1 x (List.mem_cons_of_mem b hx)
    have htp0 : (0:ℝ) ≤ t.prod := List.prod_nonneg ht0
    have htp1 : t.prod ≤ 1 := list_prod_le_one ht0 ht1
    rcases List.mem_cons.mp ha with hab | hat
    · subst hab
      nlinarith
    · have := ih ht0 ht1 hat
      nlinarith

lemma round_mono {α : Type} [LinearOrderedField α] [FloorRing α]
    {x y : α} (h : x ≤ y) : round x ≤ round y := by
  rw [round_eq, round_eq]
  exact Int.floor_mono (by linarith)

lemma impacts_nonneg (p : Parameters) (c : CropOptimalParameters) :
    ∀ x ∈ parameterKeys.map (impactOf p c), 0 ≤ x := by
  intro x hx
  rcases List.mem_map.mp hx with ⟨k, _, rfl⟩
  exact le_of_lt (impactOf_pos p c k)

lemma impacts_le_one (p : Parameters) (c : CropOptimalParameters) :
    ∀ x ∈ parameterKeys.map (impactOf p c), x ≤ 1 := by
  intro x hx
  rcases List.mem_map.mp hx with ⟨k, _, rfl⟩
  exact impactOf_le_one p c k

lemma yieldFold_fst_nonneg (p : Parameters) (c : CropOptimalParameters) :
    0 ≤ (yieldFold p c).1 := by
  rw [yieldFold_fst]
  exact list_prod_nonneg (impacts_nonneg p c)

lemma yieldFold_fst_le_one (p : Parameters) (c : CropOptimalParameters) :
    (yieldFold p c).1 ≤ 1 := by
  rw [yieldFold_fst]
  exact list_prod_le_one (impacts_nonneg p c) (impacts_le_one p c)

lemma finalMultiplier_nonneg (p : Parameters) (c : CropOptimalParameters) :
    0 ≤ finalMultiplier p c := by
  unfold finalMultiplier
  have h := yieldFold_fst_nonneg p c
  dsimp only
  split
  · nlinarith
  · exact h

lemma finalMultiplier_le_one (p : Parameters) (c : CropOptimalParameters) :
    finalMultiplier p c ≤ 1 := by
  unfold finalMultiplier
  have h0 := yieldFold_fst_nonneg p c
  have h1 := yieldFold_fst_le_one p c
  dsimp only
  split
  · nlinarith
  · exact h1

/-- C1: the yield percentage equals `round(max(0, yieldMultiplier * 100))`
and is an integer in `[0, 100]`; every per-parameter impact factor and the
final (interaction-adjusted) multiplier are at most 1, which is why 100
cannot be exceeded.  This holds for all inputs and all profiles, in
particular for those satisfying the profile invariants. -/
theorem calculateYield_pct_formula_and_bounds
    (p : Parameters) (c : CropOptimalParameters) :
    (calculateYield p c).1 = round (Max.max 0 (finalMultiplier p c * 100)) ∧
    0 ≤ (calculateYield p c).1 ∧ (calculateYield p c).1 ≤ 100 ∧
    (∀ k, impactOf p c k ≤ 1) ∧ finalMultiplier p c ≤ 1 := by
  have hm0 := finalMultiplier_nonneg p c
  have hm1 := finalMultiplier_le_one p c
  have h100 : finalMultiplier p c * 100 ≤ 100 := by nlinarith
  have hmax : Max.max (0:ℝ) (finalMultiplier p c * 100) = finalMultiplier p c * 100 :=
    max_eq_right (by nlinarith)
  have hr0 : (0:ℤ) ≤ round (finalMultiplier p c * 100) := by
    have := round_mono (show (0:ℝ) ≤ finalMultiplier p c * 100 by nlinarith)
    simpa using this
  have hr100 : round (finalMultiplier p c * 100) ≤ 100 := by
    have := round_mono h100
    simpa using this
  refine ⟨?_, ?_, ?_, fun k => impactOf_le_one p c k, hm1⟩
  · show Max.max 0 (round (finalMultiplier p c * 100)) = _
    rw [hmax, max_eq_right hr0]
  · exact le_max_left _ _
  · show Max.max 0 (round (finalMultiplier p c * 100)) ≤ 100
    exact max_le (by norm_num) hr100

lemma devOf_of_inRange (p : Parameters) (c : CropOptimalParameters)
    (k : ParameterKey) (h : InOptimalRange p c k) : devOf p c k = 0 := by
  unfold devOf
  exact if_pos h

/-- C5: the interaction factor 0.9 is multiplied into the yield multiplier
if and only if the recorded EC deviation exceeds 0.2 and the recorded pH
deviation exceeds 0.15, where the deviation of a parameter is 0 inside its
optimal range and `|1 - impact|` outside; no other cross-parameter factor
enters the multiplier, which is otherwise just the product of the nine
per-parameter impacts. -/
theorem interaction_penalty_iff (p : Parameters) (c : CropOptimalParameters) :
    finalMultiplier p c =
      (parameterKeys.map (impactOf p c)).prod *
        (if devOf p c .ec > 1/5 ∧ devOf p c .ph > 3/20 then 9/10 else 1) ∧
    (∀ k, devOf p c k =
      if InOptimalRange p c k then 0 else |1 - impactOf p c k|) := by
  constructor
  · unfold finalMultiplier
    dsimp only
    rw [yieldFold_devs p c .ec, yieldFold_devs p c .ph, yieldFold_fst]
    by_cases h : devOf p c .ec > 1/5 ∧ devOf p c .ph > 3/20
    · rw [if_pos h, if_pos h]
    · rw [if_neg h, if_neg h, mul_one]
  · intro k
    unfold devOf
    rfl

lemma foldl_viability_ok (p : Parameters) (c : CropOptimalParameters) :
    ∀ (l : List ParameterKey) (acc : Bool × List Issue),
      (∀ k ∈ l, ¬ViolatesCritical p c k) →
      l.foldl (viabilityStep p c) acc = acc := by
  intro l
  induction l with
  | nil => intro acc _; rfl
  | cons a t ih =>
    intro acc h
    rw [List.foldl_cons,
      show viabilityStep p c acc a = acc from if_neg (h a (List.mem_cons_self a t)),
      ih _ fun k hk => h k (List.mem_cons_of_mem a hk)]

lemma foldl_rec_ok (p : Parameters) (c : CropOptimalParameters) :
    ∀ (l : List ParameterKey) (acc : List Rec),
      (∀ k ∈ l, InOptimalRange p c k) →
      l.foldl (recStep p c) acc = acc := by
  intro l
  induction l with
  | nil => intro acc _; rfl
  | cons a t ih =>
    intro acc h
    have ha := h a (List.mem_cons_self a t)
    have hstep : recStep p c acc a = acc := by
      unfold recStep
      rw [if_neg (not_lt.mpr ha.1), if_neg (not_lt.mpr ha.2)]
    rw [List.foldl_cons, hstep, ih _ fun k hk => h k (List.mem_cons_of_mem a hk)]

lemma inRange_not_violates (p : Parameters) (c : CropOptimalParameters)
    (k : ParameterKey) (hv : RangeValid (optRange c k))
    (h : InOptimalRange p c k) : ¬ViolatesCritical p c k := by
  unfold ViolatesCritical
  push_neg
  exact ⟨le_trans hv.2.1 h.1, le_trans h.2 hv.2.2⟩

lemma allOptimal_multiplier_one (p : Parameters) (c : CropOptimalParameters)
    (hopt : AllOptimal p c) :
    (parameterKeys.map (impactOf p c)).prod = 1 := by
  apply List.prod_eq_one
  intro x hx
  rcases List.mem_map.mp hx with ⟨k, _, rfl⟩
  exact impactOf_of_inRange p c k (hopt k)

lemma allOptimal_finalMultiplier (p : Parameters) (c : CropOptimalParameters)
    (hopt : AllOptimal p c) : finalMultiplier p c = 1 := by
  unfold finalMultiplier
  dsimp only
  rw [yieldFold_devs p c .ec, yieldFold_devs p c .ph,
    devOf_of_inRange p c .ec (hopt .ec), devOf_of_inRange p c .ph (hopt .ph)]
  rw [if_neg (by norm_num), yieldFold_fst, allOptimal_multiplier_one p c hopt]

lemma allOptimal_pct (p : Parameters) (c : CropOptimalParameters)
    (hopt : AllOptimal p c) : (calculateYield p c).1 = 100 := by
  show Max.max 0 (round (finalMultiplier p c * 100)) = 100
  rw [allOptimal_finalMultiplier p c hopt, one_mul]
  norm_num

lemma allOptimal_yield_issues (p : Parameters) (c : CropOptimalParameters)
    (hopt : AllOptimal p c) : (calculateYield p c).2 = [] := by
  show (yieldFold p c).2.2 = []
  exact foldl_yieldStep_issues p c parameterKeys _ fun k _ => hopt k

lemma allOptimal_viability (p : Parameters) (c : CropOptimalParameters)
    (hv : ProfileValid c) (hopt : AllOptimal p c) :
    checkViability p c = (true, []) := by
  unfold checkViability
  exact foldl_viability_ok p c parameterKeys _
    fun k _ => inRange_not_violates p c k (hv k) (hopt k)

lemma allOptimal_growthTime (p : Parameters) (c : CropConfig)
    (hg : c.growthTime.optimal ≤ c.growthTime.max)
    (hopt : AllOptimal p c.optimal) :
    calculateGrowthTime p c = c.growthTime.optimal := by
  unfold calculateGrowthTime
  dsimp only
  have ha : (optRange c.optimal .airTemperature).min ≤ p.airTemperature :=
    (hopt .airTemperature).1
  have hl : (optRange c.optimal .lightIntensity).min ≤ p.lightIntensity :=
    (hopt .lightIntensity).1
  have hc : (optRange c.optimal .co2Level).min ≤ p.co2Level :=
    (hopt .co2Level).1
  rw [if_neg (not_lt.mpr ha), if_neg (not_lt.mpr hl), if_neg (not_lt.mpr hc)]
  rw [show (1:ℚ) * 1 * 1 * 1 = 1 by norm_num, mul_one, round_intCast]
  exact min_eq_left hg

/-- C2 (amended): with every parameter inside its optimal range, the
simulation yields 100% yield, viability, the optimal growth time and no
issues; the recommendations list is empty provided the combined pH/EC
advisory condition does not hold — unlike the original claim, the advisory
can fire even with all parameters optimal when the EC and pH optimal
ranges are wide (half-widths above 0.8 and 0.4). -/
theorem simulate_allOptimal (c : CropConfig) (p : Parameters)
    (hv : ProfileValid c.optimal)
    (hg : c.growthTime.optimal ≤ c.growthTime.max)
    (hopt : AllOptimal p c.optimal)
    (hadv : ¬(|p.ec - ((optRange c.optimal .ec).min + (optRange c.optimal .ec).max) / 2| > 4/5 ∧
              |p.ph - ((optRange c.optimal .ph).min + (optRange c.optimal .ph).max) / 2| > 2/5)) :
    (simulateWithConfig c p).yieldPercentage = 100 ∧
    (simulateWithConfig c p).isViable = true ∧
    (simulateWithConfig c p).growthTime = c.growthTime.optimal ∧
    (simulateWithConfig c p).issues = [] ∧
    (simulateWithConfig c p).recommendations = [] := by
  have hvia := allOptimal_viability p c.optimal hv hopt
  have hrec : generateRecommendations p c.optimal = [] := by
    unfold generateRecommendations
    rw [foldl_rec_ok p c.optimal parameterKeys [] fun k _ => hopt k, if_neg hadv]
  refine ⟨?_, ?_, ?_, ?_, ?_⟩
  · show (calculateYield p c.optimal).1 = 100
    exact allOptimal_pct p c.optimal hopt
  · show (checkViability p c.optimal).1 = true
    rw [hvia]
  · show calculateGrowthTime p c = c.growthTime.optimal
    exact allOptimal_growthTime p c hg hopt
  · show (checkViability p c.optimal).2 ++ (calculateYield p c.optimal).2 = []
    rw [hvia, allOptimal_yield_issues p c.optimal hopt]
    rfl
  · exact hrec

/-- A profile with wide optimal EC and pH ranges: EC optimal `[0, 2]`
(midpoint 1, half-width 1 > 0.8) and pH optimal `[5, 7]` (midpoint 6,
half-width 1 > 0.4); all other optimal ranges are `[0, 1]`; no critical
bounds are declared. -/
def wideProfile : CropOptimalParameters :=
  { ph := ⟨5, 7, none, none⟩
    ec := ⟨0, 2, none, none⟩
    airTemperature := ⟨0, 1, none, none⟩
    solutionTemperature := ⟨0, 1, none, none⟩
    lightIntensity := ⟨0, 1, none, none⟩
    co2Level := ⟨0, 1, none, none⟩
    humidity := ⟨0, 1, none, none⟩
    waterLevel := ⟨0, 1, none, none⟩
    oxygenLevel := ⟨0, 1, none, none⟩ }

/-- The wide profile packaged as a crop configuration. -/
def wideConfig : CropConfig := ⟨wideProfile, ⟨10, 20⟩, 500⟩

/-- Readings all inside the optimal ranges of `wideProfile`, with EC and
pH at the upper optimal bounds (1 beyond each midpoint). -/
def wideParams : Parameters :=
  { cropType := "lettuce", ph := 7, ec := 2, airTemperature := 1,
    solutionTemperature := 1, lightIntensity := 1, co2Level := 1,
    humidity := 1, waterLevel := 1, oxygenLevel := 1 }

/-- C2 counterexample: a profile satisfying the profile invariants and an
input with every parameter inside its optimal range for which the
recommendations list is nevertheless non-empty — the combined pH/EC
advisory fires, refuting `recommendations == []`. -/
theorem simulate_allOptimal_cex :
    ProfileValid wideProfile ∧
    wideConfig.growthTime.optimal ≤ wideConfig.growthTime.max ∧
    AllOptimal wideParams wideProfile ∧
    (simulateWithConfig wideConfig wideParams).recommendations ≠ [] := by
  refine ⟨?_, by decide, ?_, ?_⟩
  · intro k
    cases k <;> norm_num [RangeValid, optRange, effCmin, effCmax, wideProfile]
  · intro k
    cases k <;> norm_num [InOptimalRange, optRange, paramValue, wideProfile, wideParams]
  · show generateRecommendations wideParams wideProfile ≠ []
    unfold generateRecommendations
    rw [foldl_rec_ok wideParams wideProfile parameterKeys []
      (fun k _ => by cases k <;> norm_num [InOptimalRange, optRange, paramValue, wideProfile, wideParams])]
    rw [if_pos (by norm_num [optRange, wideProfile, wideParams])]
    simp

/-- A narrow profile: every optimal range has zero half-width beyond what
the advisory tolerates; EC optimal `[1, 2]`, pH optimal `[6, 7]`, others
`[0, 2]`, with declared critical bounds around them. -/
def narrowProfile : CropOptimalParameters :=
  { ph := ⟨6, 7, some 5, some 8⟩
    ec := ⟨1, 2, some 0, some 3⟩
    airTemperature := ⟨0, 2, some (-1), some 3⟩
    solutionTemperature := ⟨0, 2, none, none⟩
    lightIntensity := ⟨0, 2, some (-1), none⟩
    co2Level := ⟨0, 2, none, some 3⟩
    humidity := ⟨0, 2, none, none⟩
    waterLevel := ⟨0, 2, none, none⟩
    oxygenLevel := ⟨0, 2, none, none⟩ }

/-- The narrow profile packaged as a crop configuration. -/
def narrowConfig : CropConfig := ⟨narrowProfile, ⟨30, 45⟩, 300⟩

/-- Readings at comfortable points of the optimal ranges of
`narrowProfile`. -/
def narrowParams : Parameters :=
  { cropType := "basil", ph := 6, ec := 3/2, airTemperature := 1,
    solutionTemperature := 1, lightIntensity := 1, co2Level := 1,
    humidity := 1, waterLevel := 1, oxygenLevel := 1 }

/-- Witness for the amended C2 theorem at a concrete profile and input. -/
theorem simulate_allOptimal_witness :
    (simulateWithConfig narrowConfig narrowParams).yieldPercentage = 100 ∧
    (simulateWithConfig narrowConfig narrowParams).isViable = true ∧
    (simulateWithConfig narrowConfig narrowParams).growthTime = narrowConfig.growthTime.optimal ∧
    (simulateWithConfig narrowConfig narrowParams).issues = [] ∧
    (simulateWithConfig narrowConfig narrowParams).recommendations = [] :=
  simulate_allOptimal narrowConfig narrowParams
    (fun k => by
      cases k <;> norm_num [RangeValid, optRange, effCmin, effCmax, narrowConfig, narrowProfile])
    (by decide)
    (fun k => by
      cases k <;>
        norm_num [InOptimalRange, optRange, paramValue, narrowConfig, narrowProfile, narrowParams])
    (by norm_num [optRange, narrowConfig, narrowProfile, narrowParams])

lemma foldl_viability_char (p : Parameters) (c : CropOptimalParameters) :
    ∀ (l : List ParameterKey) (acc : Bool × List Issue),
      (l.foldl (viabilityStep p c) acc).1 =
        (acc.1 && l.all fun k => !decide (ViolatesCritical p c k)) ∧
      (l.foldl (viabilityStep p c) acc).2 =
        acc.2 ++ (l.filter fun k => decide (ViolatesCritical p c k)).map Issue.critical := by
  intro l
  induction l with
  | nil => intro acc; simp
  | cons a t ih =>
    intro acc
    rw [List.foldl_cons]
    by_cases h : ViolatesCritical p c a
    · have hstep : viabilityStep p c acc a = (false, acc.2 ++ [Issue.critical a]) :=
        if_pos h
      rw [hstep]
      refine ⟨((ih _).1).trans ?_, ((ih _).2).trans ?_⟩
      · simp [h]
      · simp [h]
    · have hstep : viabilityStep p c acc a = acc := if_neg h
      rw [hstep]
      refine ⟨((ih _).1).trans ?_, ((ih _).2).trans ?_⟩
      · simp [h]
      · simp [h]

/-- C4: the viability checker returns `false` exactly when some parameter
falls strictly outside its effective critical bounds; the issues list is
exactly one critical issue per violating parameter, in iteration order
(all nine parameters are checked, no short-circuit); a value exactly equal
to an effective critical bound is not a violation (non-strict boundary). -/
theorem checkViability_characterization (p : Parameters)
    (c : CropOptimalParameters) (hv : ProfileValid c) :
    ((checkViability p c).1 = false ↔ ∃ k, ViolatesCritical p c k) ∧
    ((checkViability p c).2 =
      (parameterKeys.filter fun k => decide (ViolatesCritical p c k)).map Issue.critical) ∧
    (∀ k, Issue.critical k ∈ (checkViability p c).2 ↔ ViolatesCritical p c k) ∧
    (∀ k, paramValue p k = effCmin (optRange c k) ∨
          paramValue p k = effCmax (optRange c k) → ¬ViolatesCritical p c k) := by
  have hchar := foldl_viability_char p c parameterKeys (true, [])
  have hfst : (checkViability p c).1 = parameterKeys.all fun k => !decide (ViolatesCritical p c k) := by
    rw [show checkViability p c = parameterKeys.foldl (viabilityStep p c) (true, []) from rfl,
      hchar.1, Bool.true_and]
  have hsnd : (checkViability p c).2 =
      (parameterKeys.filter fun k => decide (ViolatesCritical p c k)).map Issue.critical := by
    rw [show checkViability p c = parameterKeys.foldl (viabilityStep p c) (true, []) from rfl,
      hchar.2, List.nil_append]
  refine ⟨?_, hsnd, ?_, ?_⟩
  · rw [hfst]
    constructor
    · intro h
      by_contra hc
      push_neg at hc
      have : parameterKeys.all (fun k => !decide (ViolatesCritical p c k)) = true := by
        rw [List.all_eq_true]
        intro k _
        simp [hc k]
      rw [this] at h
      cases h
    · rintro ⟨k, hk⟩
      by_contra h
      have h' : parameterKeys.all (fun k => !decide (ViolatesCritical p c k)) = true := by
        revert h
        cases parameterKeys.all fun k => !decide (ViolatesCritical p c k) <;> simp
      rw [List.all_eq_true] at h'
      have := h' k (mem_parameterKeys k)
      simp [hk] at this
  · intro k
    rw [hsnd]
    constructor
    · intro h
      rcases List.mem_map.mp h with ⟨k2, hk2, heq⟩
      cases heq
      exact of_decide_eq_true (List.mem_filter.mp hk2).2
    · intro h
      exact List.mem_map.mpr ⟨k,
        List.mem_filter.mpr ⟨mem_parameterKeys k, decide_eq_true h⟩, rfl⟩
  · intro k hk
    have hr := hv k
    unfold ViolatesCritical
    push_neg
    rcases hk with h | h
    · exact ⟨le_of_eq h.symm,
        h ▸ le_trans hr.2.1 (le_trans hr.1 hr.2.2)⟩
    · exact ⟨h ▸ le_trans (le_trans hr.2.1 hr.1) hr.2.2, le_of_eq h⟩

/-- Readings equal to `narrowParams` except that pH sits below the
declared critical minimum of `narrowProfile`. -/
def lowPhParams : Parameters :=
  { cropType := "basil", ph := 4, ec := 3/2, airTemperature := 1,
    solutionTemperature := 1, lightIntensity := 1, co2Level := 1,
    humidity := 1, waterLevel := 1, oxygenLevel := 1 }

/-- Witness for the viability characterization at a concrete profile and
input with a critical pH violation. -/
theorem checkViability_characterization_witness :
    ((checkViability lowPhParams narrowProfile).1 = false ↔
      ∃ k, ViolatesCritical lowPhParams narrowProfile k) ∧
    ((checkViability lowPhParams narrowProfile).2 =
      (parameterKeys.filter fun k =>
        decide (ViolatesCritical lowPhParams narrowProfile k)).map Issue.critical) ∧
    (∀ k, Issue.critical k ∈ (checkViability lowPhParams narrowProfile).2 ↔
      ViolatesCritical lowPhParams narrowProfile k) ∧
    (∀ k, paramValue lowPhParams k = effCmin (optRange narrowProfile k) ∨
          paramValue lowPhParams k = effCmax (optRange narrowProfile k) →
          ¬ViolatesCritical lowPhParams narrowProfile k) :=
  checkViability_characterization lowPhParams narrowProfile
    (fun k => by cases k <;> norm_num [RangeValid, optRange, effCmin, effCmax, narrowProfile])

/-- C6: the growth-time estimate equals
`min(round(optimal * m), max)` where `m` is the product of the factors
1.5, 1.3 and 1.2, each applied exactly when the corresponding reading is
strictly below its optimal minimum (values above the optimal maximum never
trigger a factor); under the growth-time invariant the result is an
integer day count in `[1, max]`. -/
theorem calculateGrowthTime_spec (p : Parameters) (c : CropConfig)
    (h1 : 1 ≤ c.growthTime.optimal) (h2 : c.growthTime.optimal ≤ c.growthTime.max) :
    calculateGrowthTime p c =
      Min.min (round ((c.growthTime.optimal : ℚ) *
        ((if p.airTemperature < (optRange c.optimal .airTemperature).min then 3/2 else 1) *
         (if p.lightIntensity < (optRange c.optimal .lightIntensity).min then 13/10 else 1) *
         (if p.co2Level < (optRange c.optimal .co2Level).min then 6/5 else 1))))
        c.growthTime.max ∧
    1 ≤ calculateGrowthTime p c ∧ calculateGrowthTime p c ≤ c.growthTime.max := by
  have ha : (1:ℚ) ≤ (if p.airTemperature < (optRange c.optimal .airTemperature).min then 3/2 else 1) := by
    split <;> norm_num
  have hl : (1:ℚ) ≤ (if p.lightIntensity < (optRange c.optimal .lightIntensity).min then 13/10 else 1) := by
    split <;> norm_num
  have hc : (1:ℚ) ≤ (if p.co2Level < (optRange c.optimal .co2Level).min then 6/5 else 1) := by
    split <;> norm_num
  have hm : (1:ℚ) ≤
      ((if p.airTemperature < (optRange c.optimal .airTemperature).min then 3/2 else 1) *
       (if p.lightIntensity < (optRange c.optimal .lightIntensity).min then 13/10 else 1) *
       (if p.co2Level < (optRange c.optimal .co2Level).min then 6/5 else 1)) := by
    have hab : (1:ℚ) ≤
        ((if p.airTemperature < (optRange c.optimal .airTemperature).min then 3/2 else 1) *
         (if p.lightIntensity < (optRange c.optimal .lightIntensity).min then 13/10 else 1)) := by
      nlinarith
    nlinarith
  have heq : calculateGrowthTime p c =
      Min.min (round ((c.growthTime.optimal : ℚ) *
        ((if p.airTemperature < (optRange c.optimal .airTemperature).min then 3/2 else 1) *
         (if p.lightIntensity < (optRange c.optimal .lightIntensity).min then 13/10 else 1) *
         (if p.co2Level < (optRange c.optimal .co2Level).min then 6/5 else 1))))
        c.growthTime.max := by
    unfold calculateGrowthTime
    dsimp only
    rw [one_mul]
  have hq1 : (1:ℚ) ≤ (c.growthTime.optimal : ℚ) := by exact_mod_cast h1
  have hle : (c.growthTime.optimal : ℚ) ≤ (c.growthTime.optimal : ℚ) *
      ((if p.airTemperature < (optRange c.optimal .airTemperature).min then 3/2 else 1) *
       (if p.lightIntensity < (optRange c.optimal .lightIntensity).min then 13/10 else 1) *
       (if p.co2Level < (optRange c.optimal .co2Level).min then 6/5 else 1)) :=
    le_mul_of_one_le_right (by linarith) hm
  have hround : c.growthTime.optimal ≤ round ((c.growthTime.optimal : ℚ) *
      ((if p.airTemperature < (optRange c.optimal .airTemperature).min then 3/2 else 1) *
       (if p.lightIntensity < (optRange c.optimal .lightIntensity).min then 13/10 else 1) *
       (if p.co2Level < (optRange c.optimal .co2Level).min then 6/5 else 1))) := by
    have := round_mono hle
    rwa [round_intCast] at this
  refine ⟨heq, ?_, ?_⟩
  · rw [heq]
    exact le_min (le_trans h1 hround) (le_trans h1 h2)
  · rw [heq]
    exact min_le_right _ _

/-- Readings below the optimal air-temperature and light minimums of
`narrowProfile` (CO2 at optimum). -/
def coldDimParams : Parameters :=
  { cropType := "basil", ph := 6, ec := 3/2, airTemperature := -1,
    solutionTemperature := 1, lightIntensity := -1, co2Level := 1,
    humidity := 1, waterLevel := 1, oxygenLevel := 1 }

/-- Witness for the growth-time specification at a concrete profile and
input. -/
theorem calculateGrowthTime_spec_witness :
    calculateGrowthTime coldDimParams narrowConfig =
      Min.min (round ((narrowConfig.growthTime.optimal : ℚ) *
        ((if coldDimParams.airTemperature < (optRange narrowConfig.optimal .airTemperature).min then 3/2 else 1) *
         (if coldDimParams.lightIntensity < (optRange narrowConfig.optimal .lightIntensity).min then 13/10 else 1) *
         (if coldDimParams.co2Level < (optRange narrowConfig.optimal .co2Level).min then 6/5 else 1))))
        narrowConfig.growthTime.max ∧
    1 ≤ calculateGrowthTime coldDimParams narrowConfig ∧
    calculateGrowthTime coldDimParams narrowConfig ≤ narrowConfig.growthTime.max :=
  calculateGrowthTime_spec coldDimParams narrowConfig (by decide) (by decide)

/-- C8: the linear normalization is total and guards its degenerate
cases: when the value is below the optimal minimum and the critical
minimum offers no slack (`cmin ≥ min`), the below branch returns 0
without evaluating the division, and symmetrically above; on every input
the returned score lies in `[0, 1]` (the embedding is a total function,
so the computation raises no exception). -/
theorem computeLinearNormalized_guard (value mn mx cmin cmax : ℚ)
    (hmm : mn ≤ mx) :
    (value < mn → mn ≤ cmin → computeLinearNormalized value mn mx cmin cmax = 0) ∧
    (value > mx → cmax ≤ mx → computeLinearNormalized value mn mx cmin cmax = 0) ∧
    0 ≤ computeLinearNormalized value mn mx cmin cmax ∧
    computeLinearNormalized value mn mx cmin cmax ≤ 1 := by
  refine ⟨?_, ?_, computeLinearNormalized_nonneg _ _ _ _ _,
    computeLinearNormalized_le_one _ _ _ _ _⟩
  · intro hlt hcm
    unfold computeLinearNormalized
    rw [if_pos hlt, if_pos hcm]
  · intro hgt hcm
    unfold computeLinearNormalized
    rw [if_neg (not_lt.mpr (le_trans hmm (le_of_lt hgt))), if_pos hgt, if_pos hcm]

/-- Witness for the normalization guard at a degenerate concrete range
(`criticalMin = min = 2`, value below). -/
theorem computeLinearNormalized_guard_witness :
    (((1:ℚ) < 2 → (2:ℚ) ≤ 2 → computeLinearNormalized 1 2 5 2 8 = 0) ∧
      ((1:ℚ) > 5 → (8:ℚ) ≤ 5 → computeLinearNormalized 1 2 5 2 8 = 0) ∧
      0 ≤ computeLinearNormalized 1 2 5 2 8 ∧
      computeLinearNormalized 1 2 5 2 8 ≤ 1) ∧
    computeLinearNormalized 1 2 5 2 8 = 0 := by
  have h := computeLinearNormalized_guard 1 2 5 2 8 (by norm_num)
  exact ⟨h, h.1 (by norm_num) (by norm_num)⟩

lemma clamp_mono {x y : ℚ} (h : x ≤ y) : clamp x 0 1 ≤ clamp y 0 1 :=
  max_le_max (le_refl 0) (min_le_min (le_refl 1) h)

lemma computeLinearNormalized_mono_below (mn mx cmin cmax : ℚ) {v1 v2 : ℚ}
    (h21 : v2 ≤ v1) (h1 : v1 < mn) :
    computeLinearNormalized v2 mn mx cmin cmax ≤
      computeLinearNormalized v1 mn mx cmin cmax := by
  have h2 : v2 < mn := lt_of_le_of_lt h21 h1
  unfold computeLinearNormalized
  rw [if_pos h1, if_pos h2]
  by_cases hg : cmin ≥ mn
  · rw [if_pos hg, if_pos hg]
  · rw [if_neg hg, if_neg hg]
    apply clamp_mono
    have hden : (0:ℚ) < mn - cmin := by
      push_neg at hg
      linarith
    apply div_le_div_of_nonneg_right ?_ (le_of_lt hden)
    linarith

lemma computeLinearNormalized_mono_above (mn mx cmin cmax : ℚ)
    (hmm : mn ≤ mx) {v1 v2 : ℚ} (h1 : mx < v1) (h12 : v1 ≤ v2) :
    computeLinearNormalized v2 mn mx cmin cmax ≤
      computeLinearNormalized v1 mn mx cmin cmax := by
  have h2 : mx < v2 := lt_of_lt_of_le h1 h12
  have hn1 : ¬v1 < mn := not_lt.mpr (le_trans hmm (le_of_lt h1))
  have hn2 : ¬v2 < mn := not_lt.mpr (le_trans hmm (le_of_lt h2))
  unfold computeLinearNormalized
  rw [if_neg hn1, if_neg hn2, if_pos h1, if_pos h2]
  by_cases hg : cmax ≤ mx
  · rw [if_pos hg, if_pos hg]
  · rw [if_neg hg, if_neg hg]
    apply clamp_mono
    have hden : (0:ℚ) < cmax - mx := by
      push_neg at hg
      linarith
    apply div_le_div_of_nonneg_right ?_ (le_of_lt hden)
    linarith

/-- C7: monotonicity of the per-parameter penalty.  For a range satisfying
the range invariant, if two readings lie on the same side of the optimal
range and the second is farther from it (below optimum and smaller, or
above optimum and larger), the second impact is no larger: moving a value
toward its critical bound never increases its impact. -/
theorem impactVal_mono (k : ParameterKey) (r : ParameterRange) (v1 v2 : ℚ)
    (hr : RangeValid r)
    (h : (v2 ≤ v1 ∧ v1 < r.min) ∨ (r.max < v1 ∧ v1 ≤ v2)) :
    impactVal (PARAM_WEIGHTS k) r v2 ≤ impactVal (PARAM_WEIGHTS k) r v1 := by
  have hw : (0:ℝ) ≤ ((1 + PARAM_WEIGHTS k : ℚ) : ℝ) := by
    have := weight_pos k
    have h' : (0:ℚ) ≤ 1 + PARAM_WEIGHTS k := by linarith
    exact_mod_cast h'
  have hmono : computeLinearNormalized v2 r.min r.max (effCmin r) (effCmax r) ≤
      computeLinearNormalized v1 r.min r.max (effCmin r) (effCmax r) := by
    rcases h with ⟨h21, h1⟩ | ⟨h1, h12⟩
    · exact computeLinearNormalized_mono_below _ _ _ _ h21 h1
    · exact computeLinearNormalized_mono_above _ _ _ _ hr.1 h1 h12
  have hnot1 : ¬(r.min ≤ v1 ∧ v1 ≤ r.max) := by
    rcases h with ⟨_, h1⟩ | ⟨h1, _⟩
    · exact fun hc => absurd hc.1 (not_le.mpr h1)
    · exact fun hc => absurd hc.2 (not_le.mpr h1)
  have hnot2 : ¬(r.min ≤ v2 ∧ v2 ≤ r.max) := by
    rcases h with ⟨h21, h1⟩ | ⟨h1, h12⟩
    · exact fun hc => absurd (lt_of_le_of_lt h21 h1) (not_lt.mpr hc.1)
    · exact fun hc => absurd (lt_of_lt_of_le h1 h12) (not_lt.mpr hc.2)
  unfold impactVal
  rw [if_neg hnot1, if_neg hnot2]
  apply Real.rpow_le_rpow
  · have hq : (0:ℚ) ≤ Max.max (1/100) (computeLinearNormalized v2 r.min r.max (effCmin r) (effCmax r)) :=
      le_trans (by norm_num) (le_max_left _ _)
    exact_mod_cast hq
  · have hq : Max.max (1/100) (computeLinearNormalized v2 r.min r.max (effCmin r) (effCmax r)) ≤
        Max.max (1/100) (computeLinearNormalized v1 r.min r.max (effCmin r) (effCmax r)) :=
      max_le_max (le_refl _) hmono
    exact_mod_cast hq
  · exact hw

/-- Witness for impact monotonicity: pH readings 5.5 and 5.2, both below
the optimal minimum 6 of `narrowProfile`'s pH range. -/
theorem impactVal_mono_witness :
    impactVal (PARAM_WEIGHTS .ph) (optRange narrowProfile .ph) (26/5) ≤
      impactVal (PARAM_WEIGHTS .ph) (optRange narrowProfile .ph) (11/2) :=
  impactVal_mono .ph (optRange narrowProfile .ph) (11/2) (26/5)
    (by norm_num [RangeValid, optRange, effCmin, effCmax, narrowProfile])
    (Or.inl (by norm_num [optRange, narrowProfile]))

lemma round_eq_zero_of {α : Type} [LinearOrderedField α] [FloorRing α]
    {x : α} (h0 : 0 ≤ x) (h1 : x < 1/2) : round x = 0 :=
  round_eq_zero_iff.mpr ⟨by simpa using by linarith, h1⟩

lemma finalMultiplier_pos (p : Parameters) (c : CropOptimalParameters) :
    0 < finalMultiplier p c := by
  have hprod : 0 < (yieldFold p c).1 := by
    rw [yieldFold_fst]
    apply List.prod_pos
    intro x hx
    rcases List.mem_map.mp hx with ⟨k, _, rfl⟩
    exact impactOf_pos p c k
  unfold finalMultiplier
  dsimp only
  split
  · nlinarith
  · exact hprod

/-- C3 (amended): every per-parameter impact lies in
`[0.01^(1+weight), 1]` and is never exactly zero, and consequently the
yield multiplier is never exactly zero — a single out-of-range parameter
cannot collapse the multiplier to a hard zero (the rounded percentage,
however, can still display 0; see the counterexample). -/
theorem impactOf_bounded_never_zero (p : Parameters)
    (c : CropOptimalParameters) (k : ParameterKey) :
    ((1/100 : ℚ) : ℝ) ^ ((1 + PARAM_WEIGHTS k : ℚ) : ℝ) ≤ impactOf p c k ∧
    impactOf p c k ≤ 1 ∧ impactOf p c k ≠ 0 ∧
    0 < finalMultiplier p c ∧ finalMultiplier p c ≠ 0 :=
  ⟨impactVal_lower _ _ _ (le_of_lt (weight_pos k)),
   impactOf_le_one p c k,
   ne_of_gt (impactOf_pos p c k),
   finalMultiplier_pos p c,
   ne_of_gt (finalMultiplier_pos p c)⟩

/-- Readings equal to `narrowParams` except that the air temperature sits
exactly at the declared critical minimum `-1` of `narrowProfile` (below
the optimal minimum 0), every other reading being optimal. -/
def zeroAirParams : Parameters :=
  { cropType := "basil", ph := 6, ec := 3/2, airTemperature := -1,
    solutionTemperature := 1, lightIntensity := 1, co2Level := 1,
    humidity := 1, waterLevel := 1, oxygenLevel := 1 }

lemma zeroAir_others_inRange (k : ParameterKey) (hk : k ≠ .airTemperature) :
    InOptimalRange zeroAirParams narrowProfile k := by
  cases k <;>
    first
      | exact absurd rfl hk
      | norm_num [InOptimalRange, optRange, paramValue, narrowProfile, zeroAirParams]

lemma zeroAir_airTemp_impact :
    impactOf zeroAirParams narrowProfile .airTemperature = 1/10000 := by
  unfold impactOf impactVal
  rw [if_neg (by norm_num [optRange, paramValue, narrowProfile, zeroAirParams])]
  rw [show computeLinearNormalized (paramValue zeroAirParams .airTemperature)
      (optRange narrowProfile .airTemperature).min
      (optRange narrowProfile .airTemperature).max
      (effCmin (optRange narrowProfile .airTemperature))
      (effCmax (optRange narrowProfile .airTemperature)) = 0 by
    norm_num [computeLinearNormalized, clamp, effCmin, effCmax, optRange,
      paramValue, narrowProfile, zeroAirParams]]
  rw [show Max.max (1/100 : ℚ) 0 = 1/100 by norm_num]
  rw [show ((1 + PARAM_WEIGHTS .airTemperature : ℚ) : ℝ) = ((2:ℕ) : ℝ) by
    norm_num [PARAM_WEIGHTS]]
  rw [Real.rpow_natCast]
  norm_num

lemma zeroAir_finalMultiplier :
    finalMultiplier zeroAirParams narrowProfile = 1/10000 := by
  have hprod : (parameterKeys.map (impactOf zeroAirParams narrowProfile)).prod = 1/10000 := by
    have h1 := impactOf_of_inRange zeroAirParams narrowProfile .ph
      (zeroAir_others_inRange .ph (by simp))
    have h2 := impactOf_of_inRange zeroAirParams narrowProfile .ec
      (zeroAir_others_inRange .ec (by simp))
    have h3 := zeroAir_airTemp_impact
    have h4 := impactOf_of_inRange zeroAirParams narrowProfile .solutionTemperature
      (zeroAir_others_inRange .solutionTemperature (by simp))
    have h5 := impactOf_of_inRange zeroAirParams narrowProfile .lightIntensity
      (zeroAir_others_inRange .lightIntensity (by simp))
    have h6 := impactOf_of_inRange zeroAirParams narrowProfile .co2Level
      (zeroAir_others_inRange .co2Level (by simp))
    have h7 := impactOf_of_inRange zeroAirParams narrowProfile .humidity
      (zeroAir_others_inRange .humidity (by simp))
    have h8 := impactOf_of_inRange zeroAirParams narrowProfile .waterLevel
      (zeroAir_others_inRange .waterLevel (by simp))
    have h9 := impactOf_of_inRange zeroAirParams narrowProfile .oxygenLevel
      (zeroAir_others_inRange .oxygenLevel (by simp))
    simp [parameterKeys, h1, h2, h3, h4, h5, h6, h7, h8, h9]
  unfold finalMultiplier
  dsimp only
  rw [yieldFold_devs _ _ .ec, yieldFold_devs _ _ .ph,
    devOf_of_inRange _ _ .ec (zeroAir_others_inRange .ec (by simp)),
    devOf_of_inRange _ _ .ph (zeroAir_others_inRange .ph (by simp)),
    if_neg (by norm_num), yieldFold_fst, hprod]

/-- C3 counterexample: with the air temperature alone out of range (at its
critical bound) and all other parameters optimal, the yield percentage is
a hard 0 — the 0.01 impact floor keeps the multiplier positive but does
not keep the rounded percentage above zero. -/
theorem single_param_zero_pct_cex :
    ProfileValid narrowProfile ∧
    (∀ k, k ≠ ParameterKey.airTemperature →
      InOptimalRange zeroAirParams narrowProfile k) ∧
    ¬InOptimalRange zeroAirParams narrowProfile .airTemperature ∧
    (calculateYield zeroAirParams narrowProfile).1 = 0 := by
  refine ⟨?_, zeroAir_others_inRange, ?_, ?_⟩
  · intro k
    cases k <;> norm_num [RangeValid, optRange, effCmin, effCmax, narrowProfile]
  · norm_num [InOptimalRange, optRange, paramValue, narrowProfile, zeroAirParams]
  · show Max.max 0 (round (finalMultiplier zeroAirParams narrowProfile * 100)) = 0
    rw [zeroAir_finalMultiplier]
    rw [show (1/10000 : ℝ) * 100 = 1/100 by norm_num]
    rw [round_eq_zero_of (by norm_num) (by norm_num)]
    norm_num

lemma checkViability_false_iff (p : Parameters) (c : CropOptimalParameters) :
    (checkViability p c).1 = false ↔ ∃ k, ViolatesCritical p c k := by
  have hfst : (checkViability p c).1 =
      (parameterKeys.all fun k => !decide (ViolatesCritical p c k)) := by
    rw [show checkViability p c = parameterKeys.foldl (viabilityStep p c) (true, []) from rfl,
      (foldl_viability_char p c parameterKeys (true, [])).1, Bool.true_and]
  rw [hfst]
  constructor
  · intro h
    by_contra hc
    push_neg at hc
    have hall : (parameterKeys.all fun k => !decide (ViolatesCritical p c k)) = true := by
      rw [List.all_eq_true]
      intro k _
      simp [hc k]
    rw [hall] at h
    cases h
  · rintro ⟨k, hk⟩
    by_contra h
    have h' : (parameterKeys.all fun k => !decide (ViolatesCritical p c k)) = true := by
      revert h
      cases parameterKeys.all fun k => !decide (ViolatesCritical p c k) <;> simp
    rw [List.all_eq_true] at h'
    have := h' k (mem_parameterKeys k)
    simp [hk] at this

lemma violates_not_inRange (p : Parameters) (c : CropOptimalParameters)
    (k : ParameterKey) (hr : RangeValid (optRange c k))
    (hk : ViolatesCritical p c k) : ¬InOptimalRange p c k := by
  rcases hk with h | h
  · exact fun hc => absurd (lt_of_lt_of_le h hr.2.1) (not_lt.mpr hc.1)
  · exact fun hc => absurd (lt_of_le_of_lt hc.2 (lt_of_le_of_lt hr.2.2 h)) (lt_irrefl _)

lemma violates_linear_zero (p : Parameters) (c : CropOptimalParameters)
    (k : ParameterKey) (hr : RangeValid (optRange c k))
    (hk : ViolatesCritical p c k) :
    computeLinearNormalized (paramValue p k) (optRange c k).min (optRange c k).max
      (effCmin (optRange c k)) (effCmax (optRange c k)) = 0 := by
  rcases hk with h | h
  · have hvmin : paramValue p k < (optRange c k).min := lt_of_lt_of_le h hr.2.1
    unfold computeLinearNormalized
    rw [if_pos hvmin]
    by_cases hg : effCmin (optRange c k) ≥ (optRange c k).min
    · rw [if_pos hg]
    · rw [if_neg hg]
      push_neg at hg
      have hq : (paramValue p k - effCmin (optRange c k)) /
          ((optRange c k).min - effCmin (optRange c k)) < 0 :=
        div_neg_of_neg_of_pos (by linarith) (by linarith)
      unfold clamp
      rw [min_eq_right (le_of_lt (lt_of_lt_of_le hq (by norm_num))),
        max_eq_left (le_of_lt hq)]
  · have hvmax : (optRange c k).max < paramValue p k := lt_of_le_of_lt hr.2.2 h
    have hnlt : ¬paramValue p k < (optRange c k).min :=
      not_lt.mpr (le_trans hr.1 (le_of_lt hvmax))
    unfold computeLinearNormalized
    rw [if_neg hnlt, if_pos hvmax]
    by_cases hg : effCmax (optRange c k) ≤ (optRange c k).max
    · rw [if_pos hg]
    · rw [if_neg hg]
      push_neg at hg
      have hq : (effCmax (optRange c k) - paramValue p k) /
          (effCmax (optRange c k) - (optRange c k).max) < 0 :=
        div_neg_of_neg_of_pos (by linarith) (by linarith)
      unfold clamp
      rw [min_eq_right (le_of_lt (lt_of_lt_of_le hq (by norm_num))),
        max_eq_left (le_of_lt hq)]

lemma impactOf_of_violates (p : Parameters) (c : CropOptimalParameters)
    (k : ParameterKey) (hr : RangeValid (optRange c k))
    (hk : ViolatesCritical p c k) :
    impactOf p c k = ((1/100 : ℚ) : ℝ) ^ ((1 + PARAM_WEIGHTS k : ℚ) : ℝ) := by
  have hnot : ¬((optRange c k).min ≤ paramValue p k ∧ paramValue p k ≤ (optRange c k).max) :=
    violates_not_inRange p c k hr hk
  unfold impactOf impactVal
  rw [if_neg hnot, violates_linear_zero p c k hr hk]
  norm_num

lemma rpow_base_small : ((1/100 : ℝ)) ^ ((3/2 : ℝ)) = 1/1000 := by
  have h1 : ((1/100 : ℝ)) = ((1/10 : ℝ)) ^ (((2:ℕ) : ℝ)) := by
    rw [Real.rpow_natCast]
    norm_num
  rw [h1, ← Real.rpow_mul (by norm_num : (0:ℝ) ≤ 1/10)]
  rw [show (((2:ℕ) : ℝ)) * (3/2) = (((3:ℕ)) : ℝ) by norm_num]
  rw [Real.rpow_natCast]
  norm_num

lemma impact_floor_small (k : ParameterKey) :
    ((1/100 : ℚ) : ℝ) ^ ((1 + PARAM_WEIGHTS k : ℚ) : ℝ) ≤ 1/1000 := by
  have hexp : (3/2 : ℝ) ≤ ((1 + PARAM_WEIGHTS k : ℚ) : ℝ) := by
    have h : (3/2 : ℚ) ≤ 1 + PARAM_WEIGHTS k := by
      cases k <;> norm_num [PARAM_WEIGHTS]
    have hq : ((3/2 : ℚ) : ℝ) ≤ ((1 + PARAM_WEIGHTS k : ℚ) : ℝ) := by exact_mod_cast h
    rw [show (3/2 : ℝ) = ((3/2 : ℚ) : ℝ) by norm_num]
    exact hq
  have hle := Real.rpow_le_rpow_of_exponent_ge (by norm_num : (0:ℝ) < 1/100)
    (by norm_num : (1/100 : ℝ) ≤ 1) hexp
  calc ((1/100 : ℚ) : ℝ) ^ ((1 + PARAM_WEIGHTS k : ℚ) : ℝ)
      = ((1/100 : ℝ)) ^ ((1 + PARAM_WEIGHTS k : ℚ) : ℝ) := by norm_num
    _ ≤ ((1/100 : ℝ)) ^ ((3/2 : ℝ)) := hle
    _ = 1/1000 := rpow_base_small

lemma finalMultiplier_le_fold (p : Parameters) (c : CropOptimalParameters) :
    finalMultiplier p c ≤ (yieldFold p c).1 := by
  have h0 := yieldFold_fst_nonneg p c
  unfold finalMultiplier
  dsimp only
  split
  · nlinarith
  · exact le_refl _

/-- C10 (implicit): whenever the simulation marks the plant non-viable,
the yield percentage is 0, and with it the expected grams and the yield
per square meter: a critical violation forces a zero linear score, the
floored impact is at most `0.01^1.5 = 0.001`, and the rounded percentage
collapses to 0. -/
theorem nonviable_zero_yield (c : CropConfig) (p : Parameters)
    (hv : ProfileValid c.optimal)
    (hnv : (simulateWithConfig c p).isViable = false) :
    (simulateWithConfig c p).yieldPercentage = 0 ∧
    (simulateWithConfig c p).expectedGrams = 0 ∧
    (simulateWithConfig c p).yieldPerSquareMeter = 0 := by
  have hfalse : (checkViability p c.optimal).1 = false := hnv
  obtain ⟨k, hk⟩ := (checkViability_false_iff p c.optimal).mp hfalse
  have himp : impactOf p c.optimal k ≤ 1/1000 :=
    le_of_le_of_eq (le_of_eq (impactOf_of_violates p c.optimal k (hv k) hk))
      rfl |>.trans (impact_floor_small k)
  have hprod : (yieldFold p c.optimal).1 ≤ 1/1000 := by
    rw [yieldFold_fst]
    exact list_prod_le_of_mem (impacts_nonneg p c.optimal) (impacts_le_one p c.optimal)
      (List.mem_map.mpr ⟨k, mem_parameterKeys k, rfl⟩) himp (by norm_num)
  have hfm : finalMultiplier p c.optimal ≤ 1/1000 :=
    le_trans (finalMultiplier_le_fold p c.optimal) hprod
  have hfm0 : 0 < finalMultiplier p c.optimal := finalMultiplier_pos p c.optimal
  have hpct : (calculateYield p c.optimal).1 = 0 := by
    show Max.max 0 (round (finalMultiplier p c.optimal * 100)) = 0
    rw [round_eq_zero_of (by nlinarith) (by nlinarith)]
    norm_num
  refine ⟨hpct, ?_, ?_⟩
  · show round (c.maxYield * (((calculateYield p c.optimal).1 : ℚ) / 100)) = 0
    rw [hpct]
    norm_num
  · show ((round (((round (c.maxYield * (((calculateYield p c.optimal).1 : ℚ) / 100)) : ℚ) / 1000) * 100) : ℤ) : ℚ) / 100 = 0
    rw [hpct]
    norm_num

/-- Witness for the non-viable-zero-yield theorem at a concrete profile
and input (pH below the declared critical minimum). -/
theorem nonviable_zero_yield_witness :
    (simulateWithConfig narrowConfig lowPhParams).yieldPercentage = 0 ∧
    (simulateWithConfig narrowConfig lowPhParams).expectedGrams = 0 ∧
    (simulateWithConfig narrowConfig lowPhParams).yieldPerSquareMeter = 0 :=
  nonviable_zero_yield narrowConfig lowPhParams
    (fun k => by
      cases k <;> norm_num [RangeValid, optRange, effCmin, effCmax, narrowConfig, narrowProfile])
    (by
      show (checkViability lowPhParams narrowProfile).1 = false
      norm_num [checkViability, parameterKeys, viabilityStep, ViolatesCritical,
        effCmin, effCmax, optRange, paramValue, narrowProfile, lowPhParams])

/-- A registry with no crops at all. -/
def emptyRegistry : String → Option CropConfig := fun _ => none

/-- C9 (amended): when the crop identifier is not a key of the registry,
the simulation entry point does fail — but with the untyped runtime error
of reading a property of the undefined profile, not with a typed
`UnknownCropError`; no result is silently produced. -/
theorem simulateGrowth_unknown_fails (registry : String → Option CropConfig)
    (p : Parameters) (h : registry p.cropType = none) :
    simulateGrowth registry p = .error .undefinedProfileAccess ∧
    ∀ r, simulateGrowth registry p ≠ .ok r := by
  unfold simulateGrowth
  rw [h]
  exact ⟨rfl, fun r hr => by cases hr⟩

/-- Witness for the unknown-crop failure at a concrete registry and
input. -/
theorem simulateGrowth_unknown_fails_witness :
    simulateGrowth emptyRegistry narrowParams = .error .undefinedProfileAccess ∧
    ∀ r, simulateGrowth emptyRegistry narrowParams ≠ .ok r :=
  simulateGrowth_unknown_fails emptyRegistry narrowParams rfl

/-- C9 counterexample: on an unknown crop the failure is the
undefined-profile-access error, not the typed `UnknownCropError` the
claim describes (no such typed error exists in the code). -/
theorem simulateGrowth_unknown_not_typed_cex :
    simulateGrowth emptyRegistry lowPhParams = .error .undefinedProfileAccess ∧
    simulateGrowth emptyRegistry lowPhParams ≠ .error .unknownCrop := by
  constructor
  · rfl
  · intro h
    rw [show simulateGrowth emptyRegistry lowPhParams = .error .undefinedProfileAccess from rfl] at h
    cases h
